import Mathlib

/-!
Shallow embedding of the Venue State Engine algorithms of the Hub repository:
the friction scorer (src/algorithms/frictionScore.ts), the state-confidence
classifier (src/algorithms/stateConfidence.ts), the Open Door eligibility
filter (src/algorithms/openDoorFilter.ts) and the gravity-well radius
computation with pairwise overlap resolution (gravityWell module).

Numbers are modelled by the rationals, option-typed fields model the
TypeScript nullable values, and timestamps are integers in milliseconds.
JavaScript rounding of `Math.round(x * 10) / 10` rounds half toward
positive infinity, which the embedding reproduces with an integer floor.
-/

namespace Hub

/-- `Math.round` of JavaScript on a rational: round half toward +infinity. -/
def jsRound (x : ℚ) : ℤ := Int.floor (x + 1 / 2)

/-- `Math.round(x * 10) / 10`: round to one decimal place. -/
def roundTo1 (x : ℚ) : ℚ := (jsRound (x * 10) : ℚ) / 10

/-! ## Friction scorer (frictionScore.ts, 4-factor version) -/

/-- The raw input readings; each field is `none` when the source is down. -/
structure FrictionInputs where
  uberSurge : Option ℚ
  trafficFlow : Option ℚ
  footTrafficCount : Option ℚ
  garageOccupancy : Option ℚ

/-- The per-factor normalized breakdown reported with a score. -/
structure FrictionFactors where
  uber : ℚ
  traffic : ℚ
  foot : ℚ
  garage : ℚ
deriving DecidableEq

/-- One weight table entry, keyed by factor. -/
structure WeightTable where
  uber : ℚ
  traffic : ℚ
  foot : ℚ
  garage : ℚ
deriving DecidableEq

/-- `WEIGHTS`: the standard weight configuration. -/
def WEIGHTS : WeightTable :=
  { uber := 15 / 100, traffic := 25 / 100, foot := 40 / 100, garage := 20 / 100 }

/-- `DEGRADED_WEIGHTS`: the weights used when foot traffic is unavailable. -/
def DEGRADED_WEIGHTS : WeightTable :=
  { uber := 20 / 100, traffic := 35 / 100, foot := 5 / 100, garage := 40 / 100 }

/-- `normalizeUberSurge`: `(surge - 1.0) / 4.0 * 100` clamped to [0, 100]. -/
def normalizeUberSurge (surge : ℚ) : ℚ :=
  max 0 (min 100 ((surge - 1) / 4 * 100))

/-- `normalizeTrafficFlow`: 0 when `historicalMax <= 0`, else
`flow / historicalMax * 100` clamped to [0, 100]. -/
def normalizeTrafficFlow (flow historicalMax : ℚ) : ℚ :=
  if historicalMax ≤ 0 then 0
  else max 0 (min 100 (flow / historicalMax * 100))

/-- `normalizeFootTraffic`: same guard and clamp as traffic flow. -/
def normalizeFootTraffic (count historicalMax : ℚ) : ℚ :=
  if historicalMax ≤ 0 then 0
  else max 0 (min 100 (count / historicalMax * 100))

/-- `normalizeGarageOccupancy`: already a percentage, clamp to [0, 100]. -/
def normalizeGarageOccupancy (occupancy : ℚ) : ℚ :=
  max 0 (min 100 occupancy)

/-- The intermediate record of normalized (still nullable) inputs. -/
structure NormalizedInputs where
  uber : Option ℚ
  traffic : Option ℚ
  foot : Option ℚ
  garage : Option ℚ

/-- `selectWeights`: degraded weights when the foot-traffic factor is null. -/
def selectWeights (inputs : NormalizedInputs) : WeightTable :=
  if inputs.foot.isNone then DEGRADED_WEIGHTS else WEIGHTS

/-- The result record of `calculateFrictionScore`. -/
structure FrictionScoreResult where
  score : Option ℚ
  rawFactors : Option FrictionFactors
  isDegraded : Bool
  activeSourceCount : ℕ
deriving DecidableEq

/-- `calculateFrictionScore` of frictionScore.ts: normalize each non-null
input, count active sources, return the unavailable result on total
blackout, otherwise the weighted sum under the selected weight table,
rounded to one decimal, with the full breakdown. -/
def calculateFrictionScore (inputs : FrictionInputs)
    (trafficHistoricalMax footHistoricalMax : ℚ) : FrictionScoreResult :=
  let normalized : NormalizedInputs :=
    { uber := inputs.uberSurge.map normalizeUberSurge
      traffic := inputs.trafficFlow.map
        (fun f => normalizeTrafficFlow f trafficHistoricalMax)
      foot := inputs.footTrafficCount.map
        (fun c => normalizeFootTraffic c footHistoricalMax)
      garage := inputs.garageOccupancy.map normalizeGarageOccupancy }
  let activeSourceCount :=
    (List.filter (fun b => b)
      [normalized.uber.isSome, normalized.traffic.isSome,
       normalized.foot.isSome, normalized.garage.isSome]).length
  if activeSourceCount = 0 then
    { score := none, rawFactors := none, isDegraded := false
      activeSourceCount := 0 }
  else
    let weights := selectWeights normalized
    let isDegraded := inputs.footTrafficCount.isNone
    let frictionScore :=
      normalized.uber.getD 0 * weights.uber +
      normalized.traffic.getD 0 * weights.traffic +
      normalized.foot.getD 0 * weights.foot +
      normalized.garage.getD 0 * weights.garage
    { score := some (roundTo1 frictionScore)
      rawFactors := some
        { uber := normalized.uber.getD 0, traffic := normalized.traffic.getD 0
          foot := normalized.foot.getD 0, garage := normalized.garage.getD 0 }
      isDegraded := isDegraded
      activeSourceCount := activeSourceCount }

/-! ## Confidence classifier (stateConfidence.ts) -/

/-- The four staleness tiers. -/
inductive StateConfidence where
  | live
  | recent
  | stale
  | historical
deriving DecidableEq

/-- `THRESHOLDS.LIVE`: 5 minutes in milliseconds. -/
def THRESHOLDS_LIVE : ℤ := 5 * 60 * 1000

/-- `THRESHOLDS.RECENT`: 30 minutes in milliseconds. -/
def THRESHOLDS_RECENT : ℤ := 30 * 60 * 1000

/-- `THRESHOLDS.STALE`: 60 minutes in milliseconds. -/
def THRESHOLDS_STALE : ℤ := 60 * 60 * 1000

/-- `calculateStateConfidence`: classify the age `currentTime -
stateTimestamp` into the four tiers by strict upper-bound comparisons. -/
def calculateStateConfidence (stateTimestamp currentTime : ℤ) :
    StateConfidence :=
  let age := currentTime - stateTimestamp
  if age < THRESHOLDS_LIVE then .live
  else if age < THRESHOLDS_RECENT then .recent
  else if age < THRESHOLDS_STALE then .stale
  else .historical

/-- `isOpenDoorEligible`: membership of the tier in the allowed list. -/
def isOpenDoorEligible (confidence : StateConfidence)
    (allowedConfidence : List StateConfidence) : Bool :=
  allowedConfidence.contains confidence

/-- The default allowed tiers of `isOpenDoorEligible`. -/
def defaultAllowedConfidence : List StateConfidence := [.live, .recent]

/-! ## Open Door filter (openDoorFilter.ts) -/

/-- The enumerated failure reasons of the Open Door check. -/
inductive OpenDoorFailReason where
  | wait_time_exceeded
  | friction_exceeded
  | private_event
  | stale_data
  | unknown_state
deriving DecidableEq

/-- The result of `checkOpenDoor`. -/
structure OpenDoorCheckResult where
  isOpen : Bool
  failedReason : Option OpenDoorFailReason
deriving DecidableEq

/-- The `openDoor` component of `FilterRules`. -/
structure OpenDoorRules where
  maxWaitMinutes : ℚ
  maxFriction : ℚ
  allowedConfidence : List StateConfidence

/-- The venue fields consumed by `checkOpenDoor`. -/
structure VenueCheckInput where
  waitTime : ℚ
  frictionScore : Option ℚ
  isPrivateEvent : Bool
  stateConfidence : StateConfidence

/-- `checkOpenDoor`: the five checks in source order, the first failing
check producing the single reported reason. -/
def checkOpenDoor (venue : VenueCheckInput) (rules : OpenDoorRules) :
    OpenDoorCheckResult :=
  match venue.frictionScore with
  | none => { isOpen := false, failedReason := some .unknown_state }
  | some fs =>
    if ¬ (isOpenDoorEligible venue.stateConfidence rules.allowedConfidence) then
      { isOpen := false, failedReason := some .stale_data }
    else if venue.isPrivateEvent then
      { isOpen := false, failedReason := some .private_event }
    else if venue.waitTime ≥ rules.maxWaitMinutes then
      { isOpen := false, failedReason := some .wait_time_exceeded }
    else if fs ≥ rules.maxFriction then
      { isOpen := false, failedReason := some .friction_exceeded }
    else
      { isOpen := true, failedReason := none }

/-! ## Gravity well (gravityWell module) -/

/-- `CONSTRAINTS.BASE_RADIUS` (meters). -/
def BASE_RADIUS : ℚ := 100

/-- `CONSTRAINTS.MAX_RADIUS` (meters). -/
def MAX_RADIUS : ℚ := 200

/-- `CONSTRAINTS.MIN_RADIUS` (meters). -/
def MIN_RADIUS : ℚ := 80

/-- `CONSTRAINTS.AD_BOOST_MAX`. -/
def AD_BOOST_MAX : ℚ := 40

/-- `CONSTRAINTS.MULTIPLIER`: meters per boost point. -/
def MULTIPLIER : ℚ := 5 / 2

/-- `CONSTRAINTS.ANCHOR_BONUS`: +20 percent base radius for anchors. -/
def ANCHOR_BONUS : ℚ := 6 / 5

/-- The result record of `calculateEffectiveRadius`. -/
structure GravityWellResult where
  effectiveRadius : ℚ
  baseRadius : ℚ
  boostContribution : ℚ
  wasCapped : Bool
deriving DecidableEq

/-- `calculateEffectiveRadius`: clamp the boost to [0, 40], start from the
(possibly anchor-boosted) base radius, add the boost contribution, cap at
`MAX_RADIUS`, then floor at `MIN_RADIUS`. -/
def calculateEffectiveRadius (adBoost : ℚ) (isAnchor : Bool) :
    GravityWellResult :=
  let cappedBoost := min (max 0 adBoost) AD_BOOST_MAX
  let baseRadius := if isAnchor then BASE_RADIUS * ANCHOR_BONUS else BASE_RADIUS
  let boostContribution := cappedBoost * MULTIPLIER
  let uncappedRadius := baseRadius + boostContribution
  let effectiveRadius := min uncappedRadius MAX_RADIUS
  let finalRadius := max effectiveRadius MIN_RADIUS
  { effectiveRadius := finalRadius
    baseRadius := baseRadius
    boostContribution := boostContribution
    wasCapped := decide (uncappedRadius > MAX_RADIUS) }

/-- The result record of `resolveRadiusOverlap`. -/
structure OverlapResult where
  venue1Radius : ℚ
  venue2Radius : ℚ
  overlapPercentage : ℚ
  wasReduced : Bool
deriving DecidableEq

/-- `resolveRadiusOverlap`: no change when the circles do not overlap or the
overlap percentage (overlap amount over twice the smaller radius) is at
most 50; otherwise reduce both radii proportionally to their share of the
combined radius by the excess of the overlap over the smaller radius,
flooring each at `MIN_RADIUS`. -/
def resolveRadiusOverlap (venue1Radius venue2Radius distance : ℚ) :
    OverlapResult :=
  let totalRadii := venue1Radius + venue2Radius
  if distance ≥ totalRadii then
    { venue1Radius := venue1Radius, venue2Radius := venue2Radius
      overlapPercentage := 0, wasReduced := false }
  else
    let overlap := totalRadii - distance
    let smallerRadius := min venue1Radius venue2Radius
    let overlapPercentage := overlap / (smallerRadius * 2) * 100
    if overlapPercentage ≤ 50 then
      { venue1Radius := venue1Radius, venue2Radius := venue2Radius
        overlapPercentage := overlapPercentage, wasReduced := false }
    else
      let targetOverlap := smallerRadius
      let reductionNeeded := overlap - targetOverlap
      let ratio1 := venue1Radius / totalRadii
      let ratio2 := venue2Radius / totalRadii
      { venue1Radius := max MIN_RADIUS (venue1Radius - reductionNeeded * ratio1)
        venue2Radius := max MIN_RADIUS (venue2Radius - reductionNeeded * ratio2)
        overlapPercentage := overlapPercentage, wasReduced := true }

/-! ## Spec-side formulations used for refinement comparisons -/

/-- The Open Door cascade exactly as the spec enumerates it: five checks in
fixed priority order, the first failing check producing the reported
reason, independent of the later checks. -/
def checkOpenDoorSpecOrder (venue : VenueCheckInput) (rules : OpenDoorRules) :
    OpenDoorCheckResult :=
  if venue.frictionScore.isNone then
    { isOpen := false, failedReason := some .unknown_state }
  else if ¬ (isOpenDoorEligible venue.stateConfidence rules.allowedConfidence) then
    { isOpen := false, failedReason := some .stale_data }
  else if venue.isPrivateEvent then
    { isOpen := false, failedReason := some .private_event }
  else if venue.waitTime ≥ rules.maxWaitMinutes then
    { isOpen := false, failedReason := some .wait_time_exceeded }
  else if venue.frictionScore.getD 0 ≥ rules.maxFriction then
    { isOpen := false, failedReason := some .friction_exceeded }
  else
    { isOpen := true, failedReason := none }

/-- The effective-radius formula as the spec words it: clamp `adBoost` to
[0, 40], base radius 100 m (times 1.2 for anchors), add `adBoost` times
2.5 m, cap the sum at 200 m, then floor the result at 80 m. -/
def effectiveRadiusSpec (adBoost : ℚ) (isAnchor : Bool) : ℚ :=
  max (min ((if isAnchor then 100 * (6 / 5) else (100 : ℚ)) +
    min (max 0 adBoost) 40 * (5 / 2)) 200) 80

/-- The traffic / pedestrian flow normalization as the spec words it:
0 when the historical maximum is not positive, otherwise the ratio scaled
to a percentage and clamped to [0, 100]. -/
def flowNormalizerSpec (value historicalMax : ℚ) : ℚ :=
  if historicalMax ≤ 0 then 0
  else max 0 (min 100 (value / historicalMax * 100))

/-! ## Helper lemmas -/

/-- Unfolding of `resolveRadiusOverlap` on the reduction branch. -/
lemma resolveRadiusOverlap_reduce (rA rB d : ℚ) (hd : d < rA + rB)
    (hpct : 50 < (rA + rB - d) / (min rA rB * 2) * 100) :
    resolveRadiusOverlap rA rB d =
      { venue1Radius :=
          max MIN_RADIUS (rA - (rA + rB - d - min rA rB) * (rA / (rA + rB)))
        venue2Radius :=
          max MIN_RADIUS (rB - (rA + rB - d - min rA rB) * (rB / (rA + rB)))
        overlapPercentage := (rA + rB - d) / (min rA rB * 2) * 100
        wasReduced := true } := by
  simp only [resolveRadiusOverlap]
  rw [if_neg (not_le.mpr hd), if_neg (not_le.mpr hpct)]

/-- The overlap percentage can only exceed 50 when the smaller radius is
positive. -/
lemma smaller_radius_pos_of_pct (rA rB d : ℚ) (hd : d < rA + rB)
    (hpct : 50 < (rA + rB - d) / (min rA rB * 2) * 100) :
    0 < min rA rB := by
  by_contra hns
  push_neg at hns
  rcases lt_or_eq_of_le hns with hlt | heq
  · have hneg : (rA + rB - d) / (min rA rB * 2) < 0 :=
      div_neg_of_pos_of_neg (by linarith) (by linarith)
    nlinarith
  · rw [heq] at hpct
    norm_num at hpct

/-! ## Claims -/

/-- Claim C1: when all four raw inputs are null, `calculateFrictionScore`
returns the unavailable result (null score, null breakdown, not degraded,
zero active sources); and for every input, the score is null exactly when
the active source count is 0, and the breakdown is null exactly when the
score is. -/
theorem friction_blackout_and_score_null_iff :
    (∀ tmax fmax : ℚ,
      calculateFrictionScore
        { uberSurge := none, trafficFlow := none, footTrafficCount := none
          garageOccupancy := none } tmax fmax =
      { score := none, rawFactors := none, isDegraded := false
        activeSourceCount := 0 }) ∧
    (∀ (inputs : FrictionInputs) (tmax fmax : ℚ),
      ((calculateFrictionScore inputs tmax fmax).score = none ↔
        (calculateFrictionScore inputs tmax fmax).activeSourceCount = 0) ∧
      ((calculateFrictionScore inputs tmax fmax).rawFactors = none ↔
        (calculateFrictionScore inputs tmax fmax).score = none)) := by
  constructor
  · intro tmax fmax
    rfl
  · intro inputs tmax fmax
    rcases inputs with ⟨u, t, f, g⟩
    cases u <;> cases t <;> cases f <;> cases g <;>
      simp [calculateFrictionScore]

/-- Claim C2: `checkOpenDoor` evaluates the five checks in the spec's fixed
priority order with the first failing check producing the single reported
reason; in particular a venue with unknown friction that is also a private
event with stale data reports "unknown state". -/
theorem checkOpenDoor_priority_order :
    (∀ (venue : VenueCheckInput) (rules : OpenDoorRules),
      checkOpenDoor venue rules = checkOpenDoorSpecOrder venue rules) ∧
    checkOpenDoor
      { waitTime := 0, frictionScore := none, isPrivateEvent := true
        stateConfidence := .historical }
      { maxWaitMinutes := 15, maxFriction := 80
        allowedConfidence := defaultAllowedConfidence } =
    { isOpen := false, failedReason := some .unknown_state } := by
  constructor
  · intro venue rules
    rcases venue with ⟨w, fs, p, c⟩
    cases fs <;> simp [checkOpenDoor, checkOpenDoorSpecOrder]
  · rfl

/-- Claim C3: on inputs surge 3.0, traffic 50, foot null, garage 50 with
historical maxima 100 and 100, `calculateFrictionScore` normalizes to
(50, 50, 0, 50), applies the degraded weights and returns score 47.5,
degraded, with 3 active sources. -/
theorem friction_degraded_scenario_value :
    calculateFrictionScore
      { uberSurge := some 3, trafficFlow := some 50, footTrafficCount := none
        garageOccupancy := some 50 } 100 100 =
    { score := some (95 / 2)
      rawFactors := some { uber := 50, traffic := 50, foot := 0, garage := 50 }
      isDegraded := true, activeSourceCount := 3 } := by
  norm_num [calculateFrictionScore, normalizeUberSurge, normalizeTrafficFlow,
    normalizeGarageOccupancy, selectWeights, DEGRADED_WEIGHTS, roundTo1,
    jsRound, FrictionScoreResult.mk.injEq, FrictionFactors.mk.injEq]

/-- Claim C4: `calculateStateConfidence` classifies the age into four
half-open bands, inclusive below and exclusive above; the exact boundary
ages of 5, 30 and 60 minutes fall into the older band. -/
theorem stateConfidence_bands :
    (∀ stateTimestamp currentTime : ℤ,
      (calculateStateConfidence stateTimestamp currentTime = .live ↔
        currentTime - stateTimestamp < 5 * 60 * 1000) ∧
      (calculateStateConfidence stateTimestamp currentTime = .recent ↔
        5 * 60 * 1000 ≤ currentTime - stateTimestamp ∧
          currentTime - stateTimestamp < 30 * 60 * 1000) ∧
      (calculateStateConfidence stateTimestamp currentTime = .stale ↔
        30 * 60 * 1000 ≤ currentTime - stateTimestamp ∧
          currentTime - stateTimestamp < 60 * 60 * 1000) ∧
      (calculateStateConfidence stateTimestamp currentTime = .historical ↔
        60 * 60 * 1000 ≤ currentTime - stateTimestamp)) ∧
    calculateStateConfidence 0 (5 * 60 * 1000) = .recent ∧
    calculateStateConfidence 0 (30 * 60 * 1000) = .stale ∧
    calculateStateConfidence 0 (60 * 60 * 1000) = .historical := by
  refine ⟨fun ts now => ?_, rfl, rfl, rfl⟩
  simp only [calculateStateConfidence, THRESHOLDS_LIVE, THRESHOLDS_RECENT,
    THRESHOLDS_STALE]
  split_ifs with h1 h2 h3 <;> simp_all <;> omega

/-- Claim C5 counterexample: at radii 200 and 200 with center distance 130
the overlap percentage is 67.5 > 50 and the circles overlap, yet the
overlap percentage recomputed for the returned radii (165 and 165) is
2000/33, not exactly 50. -/
theorem resolveRadiusOverlap_not_exact_fifty_cx :
    (130 : ℚ) < 200 + 200 ∧
    50 < ((200 : ℚ) + 200 - 130) / (min (200 : ℚ) 200 * 2) * 100 ∧
    ((resolveRadiusOverlap 200 200 130).venue1Radius +
        (resolveRadiusOverlap 200 200 130).venue2Radius - 130) /
      (min (resolveRadiusOverlap 200 200 130).venue1Radius
        (resolveRadiusOverlap 200 200 130).venue2Radius * 2) * 100 ≠ 50 := by
  refine ⟨by norm_num, by norm_num [min_self], ?_⟩
  norm_num [resolveRadiusOverlap, MIN_RADIUS, min_self]

/-- Claim C5 (amended): when the circles overlap and the overlap percentage
exceeds 50, `resolveRadiusOverlap` keeps both returned radii at or above
the 80 m floor, and whenever the floor binds on neither venue the returned
radii leave an overlap amount equal to the smaller ORIGINAL radius, that
is 50 percent of twice the smaller original radius. -/
theorem resolveRadiusOverlap_shrink_props (rA rB d : ℚ)
    (hd : d < rA + rB)
    (hpct : 50 < (rA + rB - d) / (min rA rB * 2) * 100) :
    MIN_RADIUS ≤ (resolveRadiusOverlap rA rB d).venue1Radius ∧
    MIN_RADIUS ≤ (resolveRadiusOverlap rA rB d).venue2Radius ∧
    (MIN_RADIUS ≤ rA - (rA + rB - d - min rA rB) * (rA / (rA + rB)) →
     MIN_RADIUS ≤ rB - (rA + rB - d - min rA rB) * (rB / (rA + rB)) →
     (resolveRadiusOverlap rA rB d).venue1Radius +
       (resolveRadiusOverlap rA rB d).venue2Radius - d = min rA rB) := by
  rw [resolveRadiusOverlap_reduce rA rB d hd hpct]
  refine ⟨le_max_left _ _, le_max_left _ _, fun h1 h2 => ?_⟩
  have hs : 0 < min rA rB := smaller_radius_pos_of_pct rA rB d hd hpct
  have hrA : 0 < rA := lt_of_lt_of_le hs (min_le_left _ _)
  have hrB : 0 < rB := lt_of_lt_of_le hs (min_le_right _ _)
  have htot : rA + rB ≠ 0 := by positivity
  simp only [max_eq_right h1, max_eq_right h2]
  field_simp
  ring

/-- Claim C5 witness: the amended claim instantiated at radii 200 and 200
with center distance 130, where the floor binds on neither venue. -/
theorem resolveRadiusOverlap_shrink_props_witness :
    MIN_RADIUS ≤ (resolveRadiusOverlap 200 200 130).venue1Radius ∧
    MIN_RADIUS ≤ (resolveRadiusOverlap 200 200 130).venue2Radius ∧
    (resolveRadiusOverlap 200 200 130).venue1Radius +
      (resolveRadiusOverlap 200 200 130).venue2Radius - 130 =
      min (200 : ℚ) 200 := by
  have h := resolveRadiusOverlap_shrink_props 200 200 130 (by norm_num)
    (by norm_num [min_self])
  exact ⟨h.1, h.2.1,
    h.2.2 (by norm_num [MIN_RADIUS, min_self]) (by norm_num [MIN_RADIUS, min_self])⟩

/-- Claim C6: `calculateEffectiveRadius` computes exactly the spec formula
(clamp the boost to [0, 40], anchor-boosted base, 2.5 m per boost point,
200 m cap, then 80 m floor); in particular boost 0 without anchor gives
100 m, and boost 40 with anchor gives exactly 200 m with the cap
reported. -/
theorem effectiveRadius_matches_spec_formula :
    (∀ (adBoost : ℚ) (isAnchor : Bool),
      (calculateEffectiveRadius adBoost isAnchor).effectiveRadius =
        effectiveRadiusSpec adBoost isAnchor) ∧
    (calculateEffectiveRadius 0 false).effectiveRadius = 100 ∧
    (calculateEffectiveRadius 40 true).effectiveRadius = 200 ∧
    (calculateEffectiveRadius 40 true).wasCapped = true := by
  have huniv : ∀ (adBoost : ℚ) (isAnchor : Bool),
      (calculateEffectiveRadius adBoost isAnchor).effectiveRadius =
        effectiveRadiusSpec adBoost isAnchor := fun a b => rfl
  refine ⟨huniv, ?_, ?_, ?_⟩
  · rw [huniv]
    norm_num [effectiveRadiusSpec]
  · rw [huniv]
    norm_num [effectiveRadiusSpec]
  · simp only [calculateEffectiveRadius]
    norm_num [decide_eq_true_eq, BASE_RADIUS, ANCHOR_BONUS, MULTIPLIER,
      AD_BOOST_MAX, MAX_RADIUS]

/-- Claim C7: the traffic and pedestrian normalizers always return a value
in [0, 100], and both equal the spec's guarded formula, whose division
branch is taken only when the historical maximum is positive. -/
theorem flow_normalizers_guarded_and_clamped :
    ∀ value historicalMax : ℚ,
      0 ≤ normalizeTrafficFlow value historicalMax ∧
      normalizeTrafficFlow value historicalMax ≤ 100 ∧
      0 ≤ normalizeFootTraffic value historicalMax ∧
      normalizeFootTraffic value historicalMax ≤ 100 ∧
      normalizeTrafficFlow value historicalMax =
        flowNormalizerSpec value historicalMax ∧
      normalizeFootTraffic value historicalMax =
        flowNormalizerSpec value historicalMax := by
  intro value historicalMax
  refine ⟨?_, ?_, ?_, ?_, rfl, rfl⟩ <;>
    · simp only [normalizeTrafficFlow, normalizeFootTraffic]
      split_ifs
      · norm_num
      · first
          | exact le_max_left 0 _
          | exact max_le (by norm_num) (min_le_left 100 _)

/-- Claim C8 counterexample: `resolveRadiusOverlap` is not idempotent: at
radii 200 and 200 with center distance 130 one application returns radii
165 and 165, and applying the resolution again to those radii at the same
distance shrinks them further to 147.5. -/
theorem resolveRadiusOverlap_not_idempotent_cx :
    (resolveRadiusOverlap (resolveRadiusOverlap 200 200 130).venue1Radius
        (resolveRadiusOverlap 200 200 130).venue2Radius 130).venue1Radius ≠
      (resolveRadiusOverlap 200 200 130).venue1Radius := by
  have h1 : resolveRadiusOverlap 200 200 130 =
      { venue1Radius := 165, venue2Radius := 165, overlapPercentage := 135 / 2
        wasReduced := true } := by
    rw [resolveRadiusOverlap_reduce 200 200 130 (by norm_num)
      (by norm_num [min_self])]
    norm_num [MIN_RADIUS, min_self, OverlapResult.mk.injEq]
  rw [h1]
  norm_num [resolveRadiusOverlap, MIN_RADIUS, min_self]

/-- Claim C8 (amended): a pair whose overlap percentage is at most 50
(including non-overlapping pairs) is returned unchanged and unreduced by a
single application of `resolveRadiusOverlap`; idempotence on the reduced
output of an arbitrary pair does not hold. -/
theorem resolveRadiusOverlap_resolved_unchanged (rA rB d : ℚ)
    (h : (rA + rB - d) / (min rA rB * 2) * 100 ≤ 50) :
    (resolveRadiusOverlap rA rB d).venue1Radius = rA ∧
    (resolveRadiusOverlap rA rB d).venue2Radius = rB ∧
    (resolveRadiusOverlap rA rB d).wasReduced = false := by
  simp only [resolveRadiusOverlap]
  split_ifs <;> exact ⟨rfl, rfl, rfl⟩

/-- Claim C8 witness: the amended claim instantiated at radii 100 and 100
with center distance 150, whose overlap percentage is 25. -/
theorem resolveRadiusOverlap_resolved_unchanged_witness :
    (resolveRadiusOverlap 100 100 150).venue1Radius = 100 ∧
    (resolveRadiusOverlap 100 100 150).venue2Radius = 100 ∧
    (resolveRadiusOverlap 100 100 150).wasReduced = false :=
  resolveRadiusOverlap_resolved_unchanged 100 100 150 (by norm_num [min_self])

/-- Claim C9: for every boost value (negative or above 40 included) and
anchor flag the effective radius lies in [100, 200]; the 80 m floor never
alters the radius computation, since the result always equals the capped
pre-floor value. -/
theorem effectiveRadius_in_bounds (adBoost : ℚ) (isAnchor : Bool) :
    100 ≤ (calculateEffectiveRadius adBoost isAnchor).effectiveRadius ∧
    (calculateEffectiveRadius adBoost isAnchor).effectiveRadius ≤ 200 ∧
    (calculateEffectiveRadius adBoost isAnchor).effectiveRadius =
      min ((calculateEffectiveRadius adBoost isAnchor).baseRadius +
        (calculateEffectiveRadius adBoost isAnchor).boostContribution) 200 := by
  have hshape : (calculateEffectiveRadius adBoost isAnchor).effectiveRadius =
      max (min ((calculateEffectiveRadius adBoost isAnchor).baseRadius +
        (calculateEffectiveRadius adBoost isAnchor).boostContribution) 200) 80 :=
    rfl
  have hbase : (100 : ℚ) ≤ (calculateEffectiveRadius adBoost isAnchor).baseRadius := by
    cases isAnchor <;>
      norm_num [calculateEffectiveRadius, BASE_RADIUS, ANCHOR_BONUS]
  have hboost : (0 : ℚ) ≤
      (calculateEffectiveRadius adBoost isAnchor).boostContribution := by
    simp only [calculateEffectiveRadius]
    exact mul_nonneg (le_min (le_max_left 0 adBoost) (by norm_num [AD_BOOST_MAX]))
      (by norm_num [MULTIPLIER])
  have h1 : (100 : ℚ) ≤
      min ((calculateEffectiveRadius adBoost isAnchor).baseRadius +
        (calculateEffectiveRadius adBoost isAnchor).boostContribution) 200 :=
    le_min (by linarith) (by norm_num)
  rw [hshape]
  exact ⟨le_trans h1 (le_max_left _ _),
    max_le (min_le_right _ _) (by norm_num),
    max_eq_left (le_trans (by norm_num) h1)⟩

/-- Claim C10: `calculateStateConfidence` treats a future-dated state
timestamp (negative age) as maximally fresh, returning `live`, which is
Open Door eligible under the default allowed tiers. -/
theorem future_timestamp_live (stateTimestamp currentTime : ℤ)
    (h : currentTime < stateTimestamp) :
    calculateStateConfidence stateTimestamp currentTime = .live ∧
    isOpenDoorEligible (calculateStateConfidence stateTimestamp currentTime)
      defaultAllowedConfidence = true := by
  have hage : currentTime - stateTimestamp < THRESHOLDS_LIVE := by
    simp only [THRESHOLDS_LIVE]
    omega
  have hlive : calculateStateConfidence stateTimestamp currentTime = .live := by
    simp only [calculateStateConfidence]
    rw [if_pos hage]
  refine ⟨hlive, ?_⟩
  rw [hlive]
  rfl

/-- Claim C10 witness: a state timestamped 1000 ms in the observer's future
classifies as `live` and is eligible under the default tiers. -/
theorem future_timestamp_live_witness :
    calculateStateConfidence 1000 0 = .live ∧
    isOpenDoorEligible (calculateStateConfidence 1000 0)
      defaultAllowedConfidence = true :=
  future_timestamp_live 1000 0 (by norm_num)

end Hub
